import Mathlib

/-!
Verification development for the Voice-Agent backend.

Shallow embedding, translated from the Python sources under
`backend/app/`.  Wall-clock instants (Python `time.time()` floats) are
modelled as rationals and passed explicitly to every operation that reads
the clock.  External collaborators (remote STT/LLM/TTS vendors, the search
service, the embedding model, the Redis connection) are parameters of the
embedded functions, exactly as the spec declares them out of scope.
-/

/- ====================================================================
   Circuit breaker  (backend/app/core/circuit_breaker.py)
   ==================================================================== -/

/-- States of a circuit breaker (`CircuitState` enum). -/
inductive CircuitSt
  | CLOSED
  | OPEN
  | HALF_OPEN
deriving DecidableEq, Repr

/-- `CircuitStats` dataclass: counters and timestamps of one breaker. -/
structure CircuitStats where
  totalRequests : Nat
  successfulRequests : Nat
  failedRequests : Nat
  consecutiveFailures : Nat
  lastFailureTime : Option ℚ
  lastSuccessTime : Option ℚ
  stateChangedAt : ℚ
deriving DecidableEq, Repr

/-- A `CircuitBreaker` instance: configuration plus mutable state. -/
structure Circuit where
  name : String
  failureThreshold : Nat
  recoveryTimeout : ℚ
  successThreshold : Nat
  state : CircuitSt
  stats : CircuitStats
  halfOpenSuccesses : Nat
deriving DecidableEq, Repr

/-- `CircuitBreaker.__init__` with `state_changed_at = time.time()` =
the creation instant `t0`. -/
def circuitInit (name : String) (failureThreshold : Nat) (recoveryTimeout : ℚ)
    (successThreshold : Nat) (t0 : ℚ) : Circuit :=
  { name := name
    failureThreshold := failureThreshold
    recoveryTimeout := recoveryTimeout
    successThreshold := successThreshold
    state := .CLOSED
    stats :=
      { totalRequests := 0, successfulRequests := 0, failedRequests := 0
        consecutiveFailures := 0, lastFailureTime := none, lastSuccessTime := none
        stateChangedAt := t0 }
    halfOpenSuccesses := 0 }

/-- `CircuitBreaker._transition_to`: change state, stamp the clock, clear
the half-open success counter. -/
def circuitTransitionTo (c : Circuit) (s : CircuitSt) (now : ℚ) : Circuit :=
  { c with state := s
           stats := { c.stats with stateChangedAt := now }
           halfOpenSuccesses := 0 }

/-- `CircuitBreaker.is_available` — note the property itself mutates the
breaker (OPEN transitions to HALF_OPEN once the recovery timeout has
elapsed), so the model returns the answer together with the new breaker. -/
def circuitIsAvailable (c : Circuit) (now : ℚ) : Bool × Circuit :=
  match c.state with
  | .CLOSED => (true, c)
  | .OPEN =>
      if c.recoveryTimeout ≤ now - c.stats.stateChangedAt then
        (true, circuitTransitionTo c .HALF_OPEN now)
      else
        (false, c)
  | .HALF_OPEN => (true, c)

/-- `CircuitBreaker.record_success`. -/
def circuitRecordSuccess (c : Circuit) (now : ℚ) : Circuit :=
  let c :=
    { c with stats :=
        { c.stats with
            totalRequests := c.stats.totalRequests + 1
            successfulRequests := c.stats.successfulRequests + 1
            consecutiveFailures := 0
            lastSuccessTime := some now } }
  if c.state = .HALF_OPEN then
    let c := { c with halfOpenSuccesses := c.halfOpenSuccesses + 1 }
    if c.successThreshold ≤ c.halfOpenSuccesses then
      circuitTransitionTo c .CLOSED now
    else c
  else c

/-- `CircuitBreaker.record_failure`. -/
def circuitRecordFailure (c : Circuit) (now : ℚ) : Circuit :=
  let c :=
    { c with stats :=
        { c.stats with
            totalRequests := c.stats.totalRequests + 1
            failedRequests := c.stats.failedRequests + 1
            consecutiveFailures := c.stats.consecutiveFailures + 1
            lastFailureTime := some now } }
  if c.state = .HALF_OPEN then
    circuitTransitionTo c .OPEN now
  else if c.state = .CLOSED then
    if c.failureThreshold ≤ c.stats.consecutiveFailures then
      circuitTransitionTo c .OPEN now
    else c
  else c

/-- A breaker with default configuration (`failure_threshold=3`,
`recovery_timeout=30.0`, `success_threshold=1`), created at instant `t0`. -/
def circuitDefault (t0 : ℚ) : Circuit :=
  circuitInit "test" 3 30 1 t0

/-- A fresh default breaker after `record_failure` at t1, t2 and t3. -/
def circuitThreeFailures (t0 t1 t2 t3 : ℚ) : Circuit :=
  circuitRecordFailure (circuitRecordFailure
    (circuitRecordFailure (circuitDefault t0) t1) t2) t3

/-- C4: for a fresh default circuit breaker, three consecutive
`record_failure` calls open the circuit and `allow()` then returns false;
the first `allow()` at or after `recovery_timeout` past the transition
returns true and moves the breaker to HALF_OPEN; one `record_success`
then closes it. -/
theorem C4_circuit_breaker_cycle (t0 t1 t2 t3 t4 t5 t6 : ℚ)
    (h4 : t4 - t3 < 30) (h5 : 30 ≤ t5 - t3) :
    (circuitThreeFailures t0 t1 t2 t3).state = .OPEN ∧
    (circuitIsAvailable (circuitThreeFailures t0 t1 t2 t3) t4).1 = false ∧
    (circuitIsAvailable (circuitThreeFailures t0 t1 t2 t3) t5).1 = true ∧
    (circuitIsAvailable (circuitThreeFailures t0 t1 t2 t3) t5).2.state = .HALF_OPEN ∧
    (circuitRecordSuccess (circuitIsAvailable (circuitThreeFailures t0 t1 t2 t3) t5).2
      t6).state = .CLOSED := by
  have hstate : circuitThreeFailures t0 t1 t2 t3 =
      { name := "test", failureThreshold := 3, recoveryTimeout := 30,
        successThreshold := 1, state := .OPEN,
        stats := { totalRequests := 3, successfulRequests := 0, failedRequests := 3,
                   consecutiveFailures := 3, lastFailureTime := some t3,
                   lastSuccessTime := none, stateChangedAt := t3 },
        halfOpenSuccesses := 0 } := by
    rfl
  refine ⟨by rw [hstate], ?_, ?_, ?_, ?_⟩
  · rw [hstate]
    simp only [circuitIsAvailable]
    rw [if_neg (by simpa using not_le.mpr h4)]
  · rw [hstate]
    simp only [circuitIsAvailable]
    rw [if_pos (by simpa using h5)]
  · rw [hstate]
    simp only [circuitIsAvailable]
    rw [if_pos (by simpa using h5)]
    rfl
  · rw [hstate]
    simp only [circuitIsAvailable]
    rw [if_pos (by simpa using h5)]
    rfl

/-- C4 witness: the cycle at concrete instants 0, 0, 0, 0, 1, 31, 32. -/
theorem C4_circuit_breaker_cycle_witness :
    ((1 : ℚ) - 0 < 30 ∧ (30 : ℚ) ≤ 31 - 0) ∧
    ((circuitThreeFailures 0 0 0 0).state = .OPEN ∧
    (circuitIsAvailable (circuitThreeFailures 0 0 0 0) 1).1 = false ∧
    (circuitIsAvailable (circuitThreeFailures 0 0 0 0) 31).1 = true ∧
    (circuitIsAvailable (circuitThreeFailures 0 0 0 0) 31).2.state = .HALF_OPEN ∧
    (circuitRecordSuccess (circuitIsAvailable (circuitThreeFailures 0 0 0 0) 31).2
      32).state = .CLOSED) :=
  ⟨⟨by norm_num, by norm_num⟩,
   C4_circuit_breaker_cycle 0 0 0 0 1 31 32 (by norm_num) (by norm_num)⟩

/- ====================================================================
   Provider manager  (backend/app/core/provider_manager.py)
   ==================================================================== -/

/-- Outcome of one `provider.execute(*args)` call: a result value, a
`CircuitOpenError`, or any other exception with its message.  The adapters
are wrappers around remote vendors, so the outcome is a parameter of the
model; `execute` is invoked at most once per provider per manager call, so
a single outcome per provider suffices. -/
inductive ProvBehavior
  | ok (v : Nat)
  | raiseCircuitOpen
  | raiseErr (msg : String)
deriving DecidableEq, Repr

/-- A registered `BaseProvider`: its config name and enabled flag, its
circuit, and the behaviour of its `execute`. -/
structure Prov where
  name : String
  enabled : Bool
  circuit : Circuit
  behavior : ProvBehavior
deriving DecidableEq, Repr

/-- `BaseProvider.is_available` = `self.config.enabled and
self.circuit.is_available`; the `and` short-circuits, so the circuit (and
its OPEN to HALF_OPEN transition) is only consulted when enabled.  Returns
the answer and the provider with its possibly-updated circuit. -/
def provIsAvailable (p : Prov) (now : ℚ) : Bool × Prov :=
  if p.enabled then
    let r := circuitIsAvailable p.circuit now
    (r.1, { p with circuit := r.2 })
  else (false, p)

/-- Helper for `ProviderManager._get_next_available`: walk the (priority
sorted) provider list from index `i`, evaluating each provider's
availability (which can mutate its circuit) and returning the first index
that is available and differs from `exclude`. -/
def nextAvailGo (now : ℚ) (exclude : Option Nat) : Nat → List Prov → Option Nat × List Prov
  | _, [] => (none, [])
  | i, p :: rest =>
      let r := provIsAvailable p now
      if r.1 ∧ exclude ≠ some i then (some i, r.2 :: rest)
      else
        let t := nextAvailGo now exclude (i + 1) rest
        (t.1, r.2 :: t.2)

/-- `ProviderManager._get_next_available(exclude)`: first available
provider other than `exclude`, or none. -/
def managerNextAvailable (ps : List Prov) (exclude : Option Nat) (now : ℚ) :
    Option Nat × List Prov :=
  nextAvailGo now exclude 0 ps

/-- The state of one `ProviderManager.execute` call while its
while-loop runs: the provider list (circuits mutate along the way),
`_current_provider` and `_fallback_count`, the `tried_providers` name set,
the `errors` list, the indices whose `execute` was actually invoked, and
the loop variable `provider`. -/
structure MgrLoopSt where
  providers : List Prov
  currentIdx : Option Nat
  fallbackCount : Nat
  tried : List String
  errors : List (String × String)
  invoked : List Nat
  cur : Option Nat
deriving DecidableEq, Repr

/-- How one `ProviderManager.execute` call ends: a provider's result
(with the manager state it leaves behind), `AllProvidersFailedError`
carrying the per-provider error summaries, or fuel exhaustion of the
model's bounded unrolling of the unbounded Python `while` loop. -/
inductive MgrOutcome
  | success (v : Nat) (providers : List Prov) (currentIdx : Option Nat) (fallbackCount : Nat)
  | allFailed (errors : List (String × String)) (providers : List Prov)
  | outOfFuel (st : MgrLoopSt)
deriving DecidableEq, Repr

/-- Whether the bounded unrolling ran out of fuel before the call ended. -/
def MgrOutcome.isOutOfFuel : MgrOutcome → Bool
  | .outOfFuel _ => true
  | _ => false

/-- One step of the loop: finish, or continue with a new loop state. -/
inductive MgrStep
  | done (o : MgrOutcome)
  | next (st : MgrLoopSt)
deriving DecidableEq, Repr

/-- One iteration of the `while provider is not None` loop body of
`ProviderManager.execute`, translated clause by clause:
already-tried providers are skipped via `_get_next_available(exclude=provider)`
(which excludes only that one provider), success records on the circuit and
possibly switches `_current_provider`, `CircuitOpenError` skips without
recording, and any other exception records a failure, appends the error
summary and moves to the next available provider. -/
def managerStepOnce (now : ℚ) (st : MgrLoopSt) : MgrStep :=
  match st.cur with
  | none => .done (.allFailed st.errors st.providers)
  | some i =>
      match st.providers.get? i with
      | none => .done (.allFailed st.errors st.providers)
      | some p =>
          if p.name ∈ st.tried then
            let t := managerNextAvailable st.providers (some i) now
            .next { st with providers := t.2, cur := t.1 }
          else
            let tried2 := st.tried ++ [p.name]
            let invoked2 := st.invoked ++ [i]
            match p.behavior with
            | .ok v =>
                let p2 := { p with circuit := circuitRecordSuccess p.circuit now }
                let ps2 := st.providers.set i p2
                if st.currentIdx = some i then
                  .done (.success v ps2 st.currentIdx st.fallbackCount)
                else
                  .done (.success v ps2 (some i) (st.fallbackCount + 1))
            | .raiseCircuitOpen =>
                let t := managerNextAvailable st.providers (some i) now
                .next { st with providers := t.2, tried := tried2,
                                invoked := invoked2, cur := t.1 }
            | .raiseErr e =>
                let p2 := { p with circuit := circuitRecordFailure p.circuit now }
                let ps2 := st.providers.set i p2
                let t := managerNextAvailable ps2 (some i) now
                .next { st with providers := t.2, tried := tried2,
                                errors := st.errors ++ [(p.name, e)],
                                invoked := invoked2, cur := t.1 }

/-- The `while` loop of `ProviderManager.execute`, unrolled on fuel. -/
def managerExecLoop (now : ℚ) : Nat → MgrLoopSt → MgrOutcome
  | 0, st => .outOfFuel st
  | Nat.succ n, st =>
      match managerStepOnce now st with
      | .done o => o
      | .next st2 => managerExecLoop now n st2

/-- The prologue of `ProviderManager.execute`: start with
`_current_provider` if it exists and is available (the availability check
can mutate its circuit), else with `_get_next_available()`. -/
def managerInit (ps : List Prov) (currentIdx : Option Nat) (fallbackCount : Nat)
    (now : ℚ) : MgrLoopSt :=
  match currentIdx with
  | some ci =>
      match ps.get? ci with
      | none =>
          let t := managerNextAvailable ps none now
          ⟨t.2, currentIdx, fallbackCount, [], [], [], t.1⟩
      | some p =>
          let r := provIsAvailable p now
          let ps2 := ps.set ci r.2
          if r.1 then ⟨ps2, currentIdx, fallbackCount, [], [], [], some ci⟩
          else
            let t := managerNextAvailable ps2 none now
            ⟨t.2, currentIdx, fallbackCount, [], [], [], t.1⟩
  | none =>
      let t := managerNextAvailable ps none now
      ⟨t.2, currentIdx, fallbackCount, [], [], [], t.1⟩

/-- `ProviderManager.execute`, with `fuel` bounding the loop. -/
def managerExecute (fuel : Nat) (now : ℚ) (ps : List Prov) (currentIdx : Option Nat)
    (fallbackCount : Nat) : MgrOutcome :=
  managerExecLoop now fuel (managerInit ps currentIdx fallbackCount now)

/-- Unfolding lemma for one loop iteration. -/
theorem managerExecLoop_succ (now : ℚ) (n : Nat) (st : MgrLoopSt) :
    managerExecLoop now (n + 1) st =
      match managerStepOnce now st with
      | .done o => o
      | .next st2 => managerExecLoop now n st2 := rfl

/-- If a step continues, the loop consumes one unit of fuel. -/
theorem managerExecLoop_next {now : ℚ} {st st2 : MgrLoopSt} (n : Nat)
    (h : managerStepOnce now st = .next st2) :
    managerExecLoop now (n + 1) st = managerExecLoop now n st2 := by
  rw [managerExecLoop_succ, h]

/-- The primary STT provider (`deepgram`, priority 0) with a fresh default
circuit, whose `execute` raises an HTTP error. -/
def provA : Prov :=
  { name := "deepgram", enabled := true,
    circuit := circuitInit "stt_deepgram" 3 30 1 0,
    behavior := .raiseErr "HTTP 500" }

/-- The backup STT provider (`assemblyai`, priority 1) with a fresh
default circuit, whose `execute` also raises. -/
def provB : Prov :=
  { name := "assemblyai", enabled := true,
    circuit := circuitInit "stt_assemblyai" 3 30 1 0,
    behavior := .raiseErr "HTTP 500" }

/-- The loop state reached after both providers were tried and failed
once: both circuits still CLOSED (1 consecutive failure < threshold 3),
both names in `tried_providers`, and the loop variable back on index 0. -/
def mgrStuckA : MgrLoopSt :=
  { providers := [{ provA with circuit := circuitRecordFailure provA.circuit 0 },
                  { provB with circuit := circuitRecordFailure provB.circuit 0 }]
    currentIdx := some 0
    fallbackCount := 0
    tried := ["deepgram", "assemblyai"]
    errors := [("deepgram", "HTTP 500"), ("assemblyai", "HTTP 500")]
    invoked := [0, 1]
    cur := some 0 }

/-- The same stuck state with the loop variable on index 1. -/
def mgrStuckB : MgrLoopSt :=
  { mgrStuckA with cur := some 1 }

/-- From the stuck pair the loop cycles forever: each state steps to the
other, so no amount of fuel finishes the call. -/
theorem managerStuck_cycle (n : Nat) :
    (managerExecLoop 0 n mgrStuckA).isOutOfFuel = true ∧
    (managerExecLoop 0 n mgrStuckB).isOutOfFuel = true := by
  induction n with
  | zero => exact ⟨rfl, rfl⟩
  | succ n ih =>
      have hA : managerStepOnce 0 mgrStuckA = .next mgrStuckB := by rfl
      have hB : managerStepOnce 0 mgrStuckB = .next mgrStuckA := by rfl
      exact ⟨by rw [managerExecLoop_next n hA]; exact ih.2,
             by rw [managerExecLoop_next n hB]; exact ih.1⟩

/-- C2 (code bug): with two registered, enabled providers whose fresh
circuits stay CLOSED after a single failure each (threshold 3), and whose
`execute` both raise, `ProviderManager.execute` never terminates: after
both have been tried, `_get_next_available(exclude=provider)` excludes
only the one just-visited provider, so the loop alternates between the two
already-tried providers forever instead of raising
`AllProvidersFailedError`.  No fuel bound makes the call finish. -/
theorem C2_provider_manager_execute_diverges (fuel : Nat) :
    (managerExecute fuel 0 [provA, provB] (some 0) 0).isOutOfFuel = true := by
  match fuel with
  | 0 => rfl
  | 1 => rfl
  | Nat.succ (Nat.succ n) =>
      have h0 : managerStepOnce 0 (managerInit [provA, provB] (some 0) 0 0) =
          .next { providers := [{ provA with circuit := circuitRecordFailure provA.circuit 0 },
                                provB]
                  currentIdx := some 0, fallbackCount := 0
                  tried := ["deepgram"]
                  errors := [("deepgram", "HTTP 500")]
                  invoked := [0], cur := some 1 } := by rfl
      have h1 : managerStepOnce 0
          { providers := [{ provA with circuit := circuitRecordFailure provA.circuit 0 },
                          provB]
            currentIdx := some 0, fallbackCount := 0
            tried := ["deepgram"]
            errors := [("deepgram", "HTTP 500")]
            invoked := [0], cur := some 1 } = .next mgrStuckA := by rfl
      show (managerExecLoop 0 (n + 1 + 1) (managerInit [provA, provB] (some 0) 0 0)).isOutOfFuel = true
      rw [managerExecLoop_next (n + 1) h0, managerExecLoop_next n h1]
      exact (managerStuck_cycle n).1

/- ====================================================================
   Embedding utilities  (backend/app/utils/embeddings.py)
   ==================================================================== -/

/-- Sum of squares of a vector (`np.linalg.norm(a)` squared). -/
def sumSq (v : List ℚ) : ℚ :=
  (v.map fun x => x * x).sum

/-- `np.dot(a, b)` on equal-length float vectors: the sum of pointwise
products. -/
def dotList (a b : List ℚ) : ℚ :=
  (List.zipWith (fun x y => x * y) a b).sum

/-- `np.linalg.norm(a)`: the Euclidean norm.  Float arithmetic is
modelled by exact real arithmetic. -/
noncomputable def l2norm (v : List ℚ) : ℝ :=
  Real.sqrt ((sumSq v : ℚ) : ℝ)

/-- `cosine_similarity(vec1, vec2)`: dot product over the product of
norms, guarded so that a zero norm on either side yields `0.0`. -/
noncomputable def cosineSimilarity (a b : List ℚ) : ℝ :=
  if l2norm a = 0 ∨ l2norm b = 0 then 0
  else ((dotList a b : ℚ) : ℝ) / (l2norm a * l2norm b)

/-- C10: `cosine_similarity` is total: whenever either vector has zero
norm it returns exactly `0.0`, and in the remaining case the divisor
`norm_a * norm_b` is provably nonzero, so the division in the source can
never be a division by zero. -/
theorem C10_cosine_similarity_total (a b : List ℚ) :
    (l2norm a = 0 ∨ l2norm b = 0 → cosineSimilarity a b = 0) ∧
    (l2norm a ≠ 0 → l2norm b ≠ 0 →
      l2norm a * l2norm b ≠ 0 ∧
      cosineSimilarity a b = ((dotList a b : ℚ) : ℝ) / (l2norm a * l2norm b)) := by
  constructor
  · intro h
    simp only [cosineSimilarity, if_pos h]
  · intro ha hb
    refine ⟨mul_ne_zero ha hb, ?_⟩
    simp only [cosineSimilarity]
    rw [if_neg (by push_neg; exact ⟨ha, hb⟩)]

/- ====================================================================
   Semantic cache  (backend/app/core/cache.py)
   ==================================================================== -/

/-- One stored cache record (`cache_data` JSON written by
`SemanticCache.set`): the original query, the cached response, the ISO
timestamp and the caller-supplied metadata map. -/
structure CacheData where
  query : String
  response : String
  cachedAt : String
  metadata : List (String × String)
deriving DecidableEq, Repr

/-- What `SemanticCache.get` hands back on a hit: the response plus the
metadata block `{cached, similarity, original_query, cached_at}`. -/
structure CacheHitResult where
  response : String
  cachedFlag : Bool
  similarity : ℝ
  originalQuery : String
  cachedAt : String

/-- Python `round(x, 3)` (round half to even on the third decimal;
the source rounds an IEEE double, whose exact-tie cases are immaterial
to every claim below). -/
noncomputable def roundHalfEven (x : ℝ) : ℤ :=
  if x - ⌊x⌋ < 1 / 2 then ⌊x⌋
  else if 1 / 2 < x - ⌊x⌋ then ⌊x⌋ + 1
  else if Even ⌊x⌋ then ⌊x⌋ else ⌊x⌋ + 1

/-- `round(best_similarity, 3)`. -/
noncomputable def pyRound3 (x : ℝ) : ℝ :=
  (roundHalfEven (x * 1000) : ℝ) / 1000

/-- The scan loop of `SemanticCache.get`: over the index members, fetch
each stored embedding (keys whose embedding record is missing are
skipped), compute the cosine similarity against the query embedding, and
keep the best match that strictly improves on `best_similarity` and
reaches the threshold. -/
noncomputable def semBestLoop (thr : ℝ) (qe : List ℚ) (embStore : String → Option (List ℚ)) :
    List String → Option String → ℝ → Option String × ℝ
  | [], best, bestSim => (best, bestSim)
  | k :: ks, best, bestSim =>
      match embStore k with
      | none => semBestLoop thr qe embStore ks best bestSim
      | some e =>
          let s := cosineSimilarity qe e
          if bestSim < s ∧ thr ≤ s then semBestLoop thr qe embStore ks (some k) s
          else semBestLoop thr qe embStore ks best bestSim

/-- `SemanticCache.get(query)`.  The Redis contents are parameters: the
`sem_cache:index` member set (in its arbitrary iteration order), the
embedding records and the response records; `get_embedding` is the
external embedding model.  The `_stats` hit/miss counters and logging are
telemetry and are not modelled.  `if not cached_keys` and
`if best_match` follow Python truthiness (empty set / empty string are
falsy). -/
noncomputable def semCacheGet (thr : ℝ) (embed : String → List ℚ)
    (index : List String) (embStore : String → Option (List ℚ))
    (respStore : String → Option CacheData) (q : String) : Option CacheHitResult :=
  let qe := embed q
  if index = [] then none
  else
    let r := semBestLoop thr qe embStore index none 0
    match r.1 with
    | none => none
    | some k =>
        if k = "" then none
        else
          match respStore k with
          | none => none
          | some d =>
              some { response := d.response, cachedFlag := true,
                     similarity := pyRound3 r.2,
                     originalQuery := d.query, cachedAt := d.cachedAt }

/-- Invariant of the best-match accumulator after the keys `seen` have
been scanned: either nothing qualified yet (accumulator still `(none, 0)`
and every seen key is below threshold), or the accumulator holds a seen
key whose similarity reaches the threshold and dominates every seen
key. -/
def SemLoopInv (simf : String → ℝ) (thr : ℝ) (seen : List String) :
    Option String × ℝ → Prop
  | (none, b) => b = 0 ∧ ∀ k ∈ seen, simf k < thr
  | (some k0, b) => k0 ∈ seen ∧ b = simf k0 ∧ thr ≤ b ∧ ∀ k ∈ seen, simf k ≤ b

/-- The scan loop preserves the accumulator invariant. -/
theorem semBestLoop_inv (thr : ℝ) (qe : List ℚ)
    (embStore : String → Option (List ℚ)) (hthr : 0 < thr) :
    ∀ (ks seen : List String) (acc : Option String × ℝ),
      (∀ k ∈ ks, (embStore k).isSome = true) →
      SemLoopInv (fun k => cosineSimilarity qe ((embStore k).getD [])) thr seen acc →
      SemLoopInv (fun k => cosineSimilarity qe ((embStore k).getD [])) thr (seen ++ ks)
        (semBestLoop thr qe embStore ks acc.1 acc.2) := by
  intro ks
  induction ks with
  | nil =>
      intro seen acc _ hacc
      simpa [semBestLoop] using hacc
  | cons k ks ih =>
      intro seen acc hks hacc
      have hk : (embStore k).isSome = true := hks k (List.mem_cons_self k ks)
      obtain ⟨e, he⟩ := Option.isSome_iff_exists.mp hk
      have hseen : seen ++ k :: ks = (seen ++ [k]) ++ ks := by simp
      set simf := fun k => cosineSimilarity qe ((embStore k).getD []) with hsimf
      have hsk : simf k = cosineSimilarity qe e := by simp [hsimf, he]
      rw [hseen]
      obtain ⟨b0, bs0⟩ := acc
      by_cases hcond : bs0 < cosineSimilarity qe e ∧ thr ≤ cosineSimilarity qe e
      · have hstep : semBestLoop thr qe embStore (k :: ks) b0 bs0 =
            semBestLoop thr qe embStore ks (some k) (cosineSimilarity qe e) := by
          simp [semBestLoop, he, hcond]
        rw [hstep]
        refine ih (seen ++ [k]) (some k, cosineSimilarity qe e)
          (fun x hx => hks x (List.mem_cons_of_mem k hx)) ?_
        constructor
        · simp
        refine ⟨hsk.symm, hcond.2, ?_⟩
        intro x hx
        rcases List.mem_append.mp hx with hx1 | hx2
        · match b0, hacc with
          | none, ⟨hb, hall⟩ => exact le_of_lt (lt_of_lt_of_le (hall x hx1) hcond.2)
          | some j, ⟨hj, hb, hthrb, hall⟩ =>
              exact le_of_lt (lt_of_le_of_lt (hb ▸ hall x hx1) hcond.1)
        · have : x = k := by simpa using hx2
          rw [this, hsk]
      · have hstep : semBestLoop thr qe embStore (k :: ks) b0 bs0 =
            semBestLoop thr qe embStore ks b0 bs0 := by
          simp [semBestLoop, he, hcond]
        rw [hstep]
        refine ih (seen ++ [k]) (b0, bs0)
          (fun x hx => hks x (List.mem_cons_of_mem k hx)) ?_
        match b0, hacc with
        | none, ⟨hb, hall⟩ =>
            refine ⟨hb, ?_⟩
            intro x hx
            rcases List.mem_append.mp hx with hx1 | hx2
            · exact hall x hx1
            · have hxk : x = k := by simpa using hx2
              subst hxk
              rw [hsk]
              by_contra hge
              push_neg at hge
              exact hcond ⟨hb ▸ lt_of_lt_of_le hthr hge, hge⟩
        | some j, ⟨hj, hb, hthrb, hall⟩ =>
            refine ⟨List.mem_append.mpr (Or.inl hj), hb, hthrb, ?_⟩
            intro x hx
            rcases List.mem_append.mp hx with hx1 | hx2
            · exact hall x hx1
            · have hxk : x = k := by simpa using hx2
              subst hxk
              rw [hsk]
              by_contra hgt
              push_neg at hgt
              rcases le_or_lt (cosineSimilarity qe e) bs0 with hle | hlt
              · exact absurd hle (not_le.mpr hgt)
              · exact hcond ⟨hlt, le_of_lt (lt_of_le_of_lt hthrb hlt)⟩

/-- C5: with a positive threshold (default 0.85), a well-formed store
(every index member carries both an embedding and a response record, and
index keys are the nonempty hex digests), `SemanticCache.get` returns
nothing exactly when no indexed entry reaches the threshold; on a hit, it
returns the response record of an indexed entry whose similarity reaches
the threshold and is the highest over the whole index, together with that
(3-decimal rounded) similarity and the original query. -/
theorem C5_semantic_cache_get (thr : ℝ) (embed : String → List ℚ)
    (index : List String) (embStore : String → Option (List ℚ))
    (respStore : String → Option CacheData) (q : String)
    (hthr : 0 < thr)
    (hinv : ∀ k ∈ index, (embStore k).isSome = true ∧ (respStore k).isSome = true)
    (hkey : "" ∉ index) :
    (semCacheGet thr embed index embStore respStore q = none →
      ∀ k ∈ index, cosineSimilarity (embed q) ((embStore k).getD []) < thr) ∧
    (∀ r, semCacheGet thr embed index embStore respStore q = some r →
      ∃ k ∈ index,
        thr ≤ cosineSimilarity (embed q) ((embStore k).getD []) ∧
        (∀ k2 ∈ index, cosineSimilarity (embed q) ((embStore k2).getD []) ≤
          cosineSimilarity (embed q) ((embStore k).getD [])) ∧
        ∃ d, respStore k = some d ∧ r.response = d.response ∧
          r.originalQuery = d.query ∧ r.cachedAt = d.cachedAt ∧
          r.similarity = pyRound3 (cosineSimilarity (embed q) ((embStore k).getD []))) := by
  by_cases hidx : index = []
  · subst hidx
    constructor
    · intro _ k hk
      exact absurd hk (List.not_mem_nil k)
    · intro r hr
      simp [semCacheGet] at hr
  · have hloop := semBestLoop_inv thr (embed q) embStore hthr index [] (none, 0)
      (fun k hk => (hinv k hk).1) (by exact ⟨rfl, by intro k hk; exact absurd hk (List.not_mem_nil k)⟩)
    simp only [List.nil_append] at hloop
    set acc := semBestLoop thr (embed q) embStore index none 0 with hacc
    have hget : semCacheGet thr embed index embStore respStore q =
        (match acc.1 with
        | none => none
        | some k =>
            if k = "" then none
            else
              match respStore k with
              | none => none
              | some d =>
                  some { response := d.response, cachedFlag := true,
                         similarity := pyRound3 acc.2,
                         originalQuery := d.query, cachedAt := d.cachedAt }) := by
      simp only [semCacheGet, if_neg hidx, hacc]
    obtain ⟨b0, bs0⟩ := acc
    match b0, hloop with
    | none, ⟨hb, hall⟩ =>
        constructor
        · intro _ k hk
          exact hall k hk
        · intro r hr
          rw [hget] at hr
          simp at hr
    | some k0, ⟨hk0, hb, hthrb, hall⟩ =>
        have hk0ne : k0 ≠ "" := fun h => hkey (h ▸ hk0)
        obtain ⟨d, hd⟩ := Option.isSome_iff_exists.mp (hinv k0 hk0).2
        constructor
        · intro hnone
          rw [hget] at hnone
          simp only [hk0ne, if_neg, hd] at hnone
          exact absurd hnone (by simp)
        · intro r hr
          rw [hget] at hr
          simp only [hk0ne, if_neg, hd] at hr
          have hb2 : bs0 = cosineSimilarity (embed q) ((embStore k0).getD []) := hb
          refine ⟨k0, hk0, hb2 ▸ hthrb, fun k2 hk2 => hb2 ▸ hall k2 hk2, d, hd, ?_⟩
          have := (Option.some_inj.mp hr).symm
          rw [this]
          exact ⟨rfl, rfl, rfl, by rw [hb2]⟩

/-- Concrete embedding model for the C5 witness: every query embeds to
the unit vector `[1, 0]`. -/
def wEmbed : String → List ℚ := fun _ => [1, 0]

/-- Concrete embedding store for the C5 witness. -/
def wEmbStore : String → Option (List ℚ) :=
  fun k => if k = "k1" then some [1, 0] else none

/-- Concrete response store for the C5 witness. -/
def wRespStore : String → Option CacheData :=
  fun k => if k = "k1" then some ⟨"hello", "Hi there!", "t0", []⟩ else none

/-- C5 witness: the characterisation instantiated at a one-entry store
with threshold 0.85, every hypothesis discharged concretely. -/
theorem C5_semantic_cache_get_witness :
    ((0 : ℝ) < 0.85 ∧
     (∀ k ∈ ["k1"], (wEmbStore k).isSome = true ∧ (wRespStore k).isSome = true) ∧
     "" ∉ ["k1"]) ∧
    ((semCacheGet 0.85 wEmbed ["k1"] wEmbStore wRespStore "hello" = none →
      ∀ k ∈ ["k1"], cosineSimilarity (wEmbed "hello") ((wEmbStore k).getD []) < 0.85) ∧
    (∀ r, semCacheGet 0.85 wEmbed ["k1"] wEmbStore wRespStore "hello" = some r →
      ∃ k ∈ ["k1"],
        (0.85 : ℝ) ≤ cosineSimilarity (wEmbed "hello") ((wEmbStore k).getD []) ∧
        (∀ k2 ∈ ["k1"], cosineSimilarity (wEmbed "hello") ((wEmbStore k2).getD []) ≤
          cosineSimilarity (wEmbed "hello") ((wEmbStore k).getD [])) ∧
        ∃ d, wRespStore k = some d ∧ r.response = d.response ∧
          r.originalQuery = d.query ∧ r.cachedAt = d.cachedAt ∧
          r.similarity = pyRound3 (cosineSimilarity (wEmbed "hello") ((wEmbStore k).getD [])))) :=
  ⟨⟨by norm_num, by decide, by decide⟩,
   C5_semantic_cache_get 0.85 wEmbed ["k1"] wEmbStore wRespStore "hello"
     (by norm_num) (by decide) (by decide)⟩

/-- The temporal keyword list of `_classify_query_type`. -/
def ttlTemporalWords : List String :=
  ["weather", "time", "today", "now", "current", "latest"]

/-- The search keyword list of `_classify_query_type`. -/
def ttlSearchWords : List String :=
  ["news", "happened", "recent", "update"]

/-- The knowledge keyword list of `_classify_query_type`. -/
def ttlKnowledgeWords : List String :=
  ["what is", "who is", "how to", "explain", "define"]

/-- Python `needle in hay` on strings: some position of `hay` starts an
occurrence of `needle`. -/
def strContains (hay needle : String) : Bool :=
  (List.range (hay.toList.length + 1)).any fun i =>
    decide ((hay.toList.drop i).take needle.toList.length = needle.toList)

/-- `SemanticCache._classify_query_type(query)`: lowercase the query and
test the three keyword lists in order; the fallthrough returns the
instance default TTL. -/
def classifyQueryType (defaultTtl : Nat) (query : String) : String × Nat :=
  let ql := query.toLower
  if ttlTemporalWords.any (fun w => strContains ql w) then ("temporal", 300)
  else if ttlSearchWords.any (fun w => strContains ql w) then ("search", 900)
  else if ttlKnowledgeWords.any (fun w => strContains ql w) then ("knowledge", 7200)
  else ("general", defaultTtl)

/-- The writes one `SemanticCache.set(query, response, ttl, metadata)`
performs: the response record and the embedding record, both under the
16-hex digest key with the chosen TTL, and the index addition. -/
structure CacheSetWrites where
  cacheKey : String
  embKey : String
  data : CacheData
  embedding : List ℚ
  ttl : Nat
  indexAdd : String
deriving Repr

/-- `SemanticCache.set`.  `keyHash` abstracts
`hashlib.sha256(query.encode()).hexdigest()[:16]` (an external digest),
`embed` the embedding model, `nowIso` the `datetime.utcnow().isoformat()`
timestamp.  When no TTL is supplied the query classification chooses
one. -/
def semCacheSet (embed : String → List ℚ) (keyHash : String → String) (defaultTtl : Nat)
    (query response : String) (ttlArg : Option Nat) (metadata : List (String × String))
    (nowIso : String) : CacheSetWrites :=
  let ttl :=
    match ttlArg with
    | some t => t
    | none => (classifyQueryType defaultTtl query).2
  let kh := keyHash query
  { cacheKey := "sem_cache:" ++ kh
    embKey := "sem_emb:" ++ kh
    data := { query := query, response := response, cachedAt := nowIso, metadata := metadata }
    embedding := embed query
    ttl := ttl
    indexAdd := kh }

/-- The spec's notion of substring containment: some decomposition of the
haystack exhibits the needle. -/
def SubstrP (needle hay : String) : Prop :=
  ∃ pre post : List Char, hay.toList = pre ++ needle.toList ++ post

/-- The boolean scan agrees with the propositional containment. -/
theorem strContains_iff (hay needle : String) :
    strContains hay needle = true ↔ SubstrP needle hay := by
  constructor
  · intro h
    obtain ⟨i, _, hi⟩ := List.any_eq_true.mp h
    have htk := of_decide_eq_true hi
    refine ⟨hay.toList.take i, (hay.toList.drop i).drop needle.toList.length, ?_⟩
    have h2 : hay.toList.drop i =
        needle.toList ++ (hay.toList.drop i).drop needle.toList.length := by
      nth_rewrite 1 [← htk]
      exact (List.take_append_drop _ _).symm
    rw [List.append_assoc, ← h2, List.take_append_drop]
  · rintro ⟨pre, post, hdecomp⟩
    apply List.any_eq_true.mpr
    refine ⟨pre.length, ?_, ?_⟩
    · apply List.mem_range.mpr
      have : hay.toList.length = pre.length + needle.toList.length + post.length := by
        rw [hdecomp]; simp only [List.length_append]
      omega
    · apply decide_eq_true
      rw [hdecomp, List.append_assoc, List.drop_left, List.take_left]

/-- Containment is decided by the boolean scan. -/
instance substrPDecidable (n h : String) : Decidable (SubstrP n h) :=
  decidable_of_iff (strContains h n = true) (strContains_iff h n)

/-- The TTL the spec's ordered lowercase-substring rules choose, written
from the spec's words as the comparison side of the refinement claim C6:
temporal 300 s, else search 900 s, else knowledge 7200 s, else the
default 3600 s. -/
def specTtlChoice (query : String) : Nat :=
  if ∃ w ∈ ttlTemporalWords, SubstrP w query.toLower then 300
  else if ∃ w ∈ ttlSearchWords, SubstrP w query.toLower then 900
  else if ∃ w ∈ ttlKnowledgeWords, SubstrP w query.toLower then 7200
  else 3600

/-- C6: for every query cached through `SemanticCache.set` without an
explicit TTL (default configuration, `default_ttl = 3600`), the TTL of
all the writes is exactly the one the spec's ordered substring rules
prescribe. -/
theorem C6_cache_set_ttl_classification (embed : String → List ℚ)
    (keyHash : String → String) (query response : String)
    (metadata : List (String × String)) (nowIso : String) :
    (semCacheSet embed keyHash 3600 query response none metadata nowIso).ttl =
      specTtlChoice query := by
  have e1 : (ttlTemporalWords.any fun w => strContains query.toLower w) = true ↔
      ∃ w ∈ ttlTemporalWords, SubstrP w query.toLower := by
    simp only [List.any_eq_true, strContains_iff]
  have e2 : (ttlSearchWords.any fun w => strContains query.toLower w) = true ↔
      ∃ w ∈ ttlSearchWords, SubstrP w query.toLower := by
    simp only [List.any_eq_true, strContains_iff]
  have e3 : (ttlKnowledgeWords.any fun w => strContains query.toLower w) = true ↔
      ∃ w ∈ ttlKnowledgeWords, SubstrP w query.toLower := by
    simp only [List.any_eq_true, strContains_iff]
  simp only [semCacheSet, classifyQueryType, specTtlChoice]
  by_cases h1 : ∃ w ∈ ttlTemporalWords, SubstrP w query.toLower
  · rw [if_pos (e1.mpr h1), if_pos h1]
  · rw [if_neg (fun hb => h1 (e1.mp hb)), if_neg h1]
    by_cases h2 : ∃ w ∈ ttlSearchWords, SubstrP w query.toLower
    · rw [if_pos (e2.mpr h2), if_pos h2]
    · rw [if_neg (fun hb => h2 (e2.mp hb)), if_neg h2]
      by_cases h3 : ∃ w ∈ ttlKnowledgeWords, SubstrP w query.toLower
      · rw [if_pos (e3.mpr h3), if_pos h3]
      · rw [if_neg (fun hb => h3 (e3.mp hb)), if_neg h3]

/- ====================================================================
   Metrics collector  (backend/app/services/metrics.py)
   ==================================================================== -/

/-- Association-list lookup (Python dict access, keys unique). -/
def alGet {α : Type} : List (String × α) → String → Option α
  | [], _ => none
  | (k2, v) :: rest, k => if k2 = k then some v else alGet rest k

/-- Association-list assignment (Python `d[k] = v`). -/
def alSet {α : Type} : List (String × α) → String → α → List (String × α)
  | [], k, v => [(k, v)]
  | (k2, v2) :: rest, k, v =>
      if k2 = k then (k2, v) :: rest else (k2, v2) :: alSet rest k v

/-- Association-list removal (Python `d.pop(k, None)`). -/
def alRemove {α : Type} : List (String × α) → String → List (String × α)
  | [], _ => []
  | (k2, v2) :: rest, k => if k2 = k then rest else (k2, v2) :: alRemove rest k

/-- Start/end instants of one pipeline stage. -/
structure StageTimes where
  startT : ℚ
  endT : Option ℚ
deriving DecidableEq, Repr

/-- One `_in_flight` entry of the metrics collector. -/
structure InFlightData where
  sessionId : String
  userId : String
  startTime : ℚ
  stages : List (String × StageTimes)
deriving DecidableEq, Repr

/-- One completed `PipelineMetrics` record. -/
structure MetricRecord where
  correlationId : String
  sessionId : String
  userId : String
  timestamp : ℚ
  sttLatencyMs : ℚ
  llmLatencyMs : ℚ
  ttsLatencyMs : ℚ
  searchLatencyMs : ℚ
  totalLatencyMs : ℚ
  success : Bool
  errorMessage : String
  usedSearch : Bool
deriving DecidableEq, Repr

/-- The `MetricsCollector` singleton state (the `active_sessions` gauge is
connection-level telemetry the pipeline claims never read and is left
out). -/
structure MetricsState where
  maxHistory : Nat
  metricsHistory : List MetricRecord
  totalRequests : Nat
  successfulRequests : Nat
  failedRequests : Nat
  inFlight : List (String × InFlightData)
deriving DecidableEq, Repr

/-- A fresh collector (`MetricsCollector(max_history=1000)`). -/
def metricsInit : MetricsState :=
  { maxHistory := 1000, metricsHistory := [], totalRequests := 0,
    successfulRequests := 0, failedRequests := 0, inFlight := [] }

/-- `MetricsCollector.start_request`. -/
def metricsStartRequest (m : MetricsState) (cid sid uid : String) (now : ℚ) : MetricsState :=
  { m with inFlight := alSet m.inFlight cid ⟨sid, uid, now, []⟩
           totalRequests := m.totalRequests + 1 }

/-- `MetricsCollector.start_stage`. -/
def metricsStartStage (m : MetricsState) (cid stage : String) (now : ℚ) : MetricsState :=
  match alGet m.inFlight cid with
  | none => m
  | some d =>
      { m with inFlight :=
          alSet m.inFlight cid ({ d with stages := alSet d.stages stage ⟨now, none⟩ }) }

/-- `MetricsCollector.end_stage`. -/
def metricsEndStage (m : MetricsState) (cid stage : String) (now : ℚ) : MetricsState :=
  match alGet m.inFlight cid with
  | none => m
  | some d =>
      match alGet d.stages stage with
      | none => m
      | some t =>
          let d2 := { d with stages := alSet d.stages stage ({ t with endT := some now }) }
          { m with inFlight := alSet m.inFlight cid d2 }

/-- The per-stage latency `end_request` extracts: stages without an end
timestamp contribute the dataclass default 0. -/
def stageLatency (stages : List (String × StageTimes)) (stage : String) : ℚ :=
  match alGet stages stage with
  | some t =>
      match t.endT with
      | some e => (e - t.startT) * 1000
      | none => 0
  | none => 0

/-- `MetricsCollector.end_request`: pop the in-flight entry, build the
record, bump the success/failure counter and append to the bounded
history deque (oldest entries drop out beyond `max_history`). -/
def metricsEndRequest (m : MetricsState) (cid : String) (success : Bool)
    (errorMessage : String) (usedSearch : Bool) (now : ℚ) : MetricsState :=
  match alGet m.inFlight cid with
  | none => m
  | some d =>
      let r0 : MetricRecord :=
        { correlationId := cid, sessionId := d.sessionId, userId := d.userId
          timestamp := d.startTime
          sttLatencyMs := stageLatency d.stages "stt"
          llmLatencyMs := stageLatency d.stages "llm"
          ttsLatencyMs := stageLatency d.stages "tts"
          searchLatencyMs := stageLatency d.stages "search"
          totalLatencyMs := (now - d.startTime) * 1000
          success := success, errorMessage := errorMessage, usedSearch := usedSearch }
      let h := m.metricsHistory ++ [r0]
      { m with inFlight := alRemove m.inFlight cid
               successfulRequests :=
                 if success then m.successfulRequests + 1 else m.successfulRequests
               failedRequests :=
                 if success then m.failedRequests else m.failedRequests + 1
               metricsHistory :=
                 if m.maxHistory < h.length then h.drop (h.length - m.maxHistory) else h }

/-- `metrics_collector._in_flight.pop(correlation_id, None)` — the
explicit discard the empty-transcript path performs: no counter and no
history entry is touched. -/
def metricsDiscard (m : MetricsState) (cid : String) : MetricsState :=
  { m with inFlight := alRemove m.inFlight cid }

/- ====================================================================
   Turn orchestrator  (backend/app/core/session_streaming.py)
   ==================================================================== -/

/-- Python `str.strip()`: drop whitespace from both ends. -/
def pyStrip (s : String) : String :=
  ⟨((s.data.dropWhile Char.isWhitespace).reverse.dropWhile Char.isWhitespace).reverse⟩

/-- The mutable per-session fields of `VoiceSessionStreaming` that the
audio path and the turn pipeline read and write. -/
structure Sess where
  state : String
  processingAudio : Bool
  interrupted : Bool
  conversationHistory : List (String × String)
  audioChunks : List (List Nat)
  speechDetected : Bool
  speechChunkCount : Nat
  lastSpeechTime : ℚ
  silenceStartTime : ℚ
deriving DecidableEq, Repr

/-- A freshly connected session (`state = "idle"`, empty buffers). -/
def sessInit : Sess :=
  { state := "idle", processingAudio := false, interrupted := false,
    conversationHistory := [], audioChunks := [], speechDetected := false,
    speechChunkCount := 0, lastSpeechTime := 0, silenceStartTime := 0 }

/-- Observable outbound activity of the orchestrator: every
`websocket.send_json` frame by its type (audio frames carry the
synthesized bytes; base64 encoding is a pure wire encoding and not
modelled), plus the cache write and the best-effort memory saves, and the
`_process_accumulated_audio()` dispatch. -/
inductive Eff
  | stateChange (st : String)
  | transcriptUpdate (speaker text : String) (isFinal : Bool)
  | audioMetricsMsg
  | vadStatus (isSpeech speechEnded : Bool)
  | interruptAck
  | errorFrame (msg : String)
  | audioFrame (ty : String) (audioData : List Nat)
  | cacheSetEff (query response : String)
  | memorySave (role content : String)
  | processAccumulated
deriving DecidableEq, Repr

/-- `send_state_update`: set `self.state` and emit the `state_change`
frame (send failures are caught and logged in the source). -/
def sendStateUpdate (s : Sess) (st2 : String) : Sess × List Eff :=
  ({ s with state := st2 }, [.stateChange st2])

/-- `_is_valid_webm`: at least 4 bytes and the EBML magic header. -/
def isValidWebm (d : List Nat) : Bool :=
  decide (4 ≤ d.length) && decide (d.take 4 = [0x1a, 0x45, 0xdf, 0xa3])

/-- The fields of the `audio_metrics_service.analyze` result this code
path reads (the full dict is forwarded verbatim in the `audio_metrics`
frame, abstracted as one effect). -/
structure AudioAnalysis where
  qualityScore : ℚ
  rms : ℚ
deriving DecidableEq, Repr

/-- The tail of `process_audio_chunk` from `now = time.time()` on: the
large-chunk push-to-talk check (`chunk_size > LARGE_CHUNK_THRESHOLD`,
10000), chunk accumulation, and the fallback / RMS-VAD turn
segmentation.  `_process_accumulated_audio()` dispatches are recorded as
the `processAccumulated` effect (the pipeline itself is modelled by
`processTurn` below). -/
def processChunkCore (s : Sess) (audioData : List Nat) (now : ℚ)
    (effs : List Eff) (isSpeech usingFallback : Bool) : Sess × List Eff :=
  if 10000 < audioData.length then
    let s2 := { s with audioChunks := s.audioChunks ++ [audioData] }
    (s2, effs ++ [.vadStatus true false, .processAccumulated])
  else
    let s2 := { s with audioChunks := s.audioChunks ++ [audioData] }
    if usingFallback then
      let s3 := { s2 with speechDetected := true, speechChunkCount := s2.speechChunkCount + 1 }
      if 6 ≤ s3.audioChunks.length then
        (s3, effs ++ [.vadStatus true false, .processAccumulated])
      else
        (s3, effs ++ [.vadStatus true false])
    else
      if isSpeech then
        ({ s2 with speechDetected := true, speechChunkCount := s2.speechChunkCount + 1,
                   lastSpeechTime := now, silenceStartTime := 0 },
         effs ++ [.vadStatus true false])
      else
        if s2.speechDetected ∧ 1 ≤ s2.speechChunkCount then
          let sst := if s2.silenceStartTime = 0 then now else s2.silenceStartTime
          let s3 := { s2 with silenceStartTime := sst }
          if (25 : ℚ) / 10 ≤ now - sst then
            (s3, effs ++ [.vadStatus false false, .processAccumulated])
          else
            (s3, effs ++ [.vadStatus false false])
        else
          (s2, effs ++ [.vadStatus false false])

/-- `process_audio_chunk(audio_data)`: barge-in while speaking, the
re-entrancy guard, WebM validation, speech analysis (the analyzer is the
external DSP collaborator, a parameter; absent analyzer or zero quality
score selects fallback mode), then `processChunkCore`. -/
def processAudioChunk (ams : Option (List Nat → AudioAnalysis)) (s : Sess)
    (audioData : List Nat) (now : ℚ) : Sess × List Eff :=
  if s.state = "speaking" then
    if 500 < audioData.length then
      let s1 := { s with interrupted := true }
      let s2 := { s1 with interrupted := true, processingAudio := false }
      let r3 := sendStateUpdate s2 "listening"
      let s4 := { r3.1 with audioChunks := [audioData], speechDetected := true,
                            speechChunkCount := 1 }
      (s4, [.interruptAck] ++ r3.2)
    else (s, [])
  else if s.processingAudio then (s, [])
  else if isValidWebm audioData = false then (s, [])
  else
    match ams with
    | some f =>
        let a := f audioData
        if 0 < a.qualityScore then
          processChunkCore s audioData now [.audioMetricsMsg]
            (decide ((2 : ℚ) / 100 < a.rms)) false
        else
          processChunkCore s audioData now [] true true
    | none => processChunkCore s audioData now [] true true

/-- C9: while the session is `speaking`, an incoming fragment of more
than 500 bytes sets the interrupt flag, emits `interrupt_ack` followed by
the `listening` state change, and re-seeds the accumulation buffer with
exactly that fragment. -/
theorem C9_barge_in (ams : Option (List Nat → AudioAnalysis)) (s : Sess)
    (d : List Nat) (now : ℚ) (hstate : s.state = "speaking")
    (hlen : 500 < d.length) :
    (processAudioChunk ams s d now).1.interrupted = true ∧
    (processAudioChunk ams s d now).1.state = "listening" ∧
    (processAudioChunk ams s d now).1.audioChunks = [d] ∧
    (processAudioChunk ams s d now).1.speechDetected = true ∧
    (processAudioChunk ams s d now).1.speechChunkCount = 1 ∧
    (processAudioChunk ams s d now).2 = [.interruptAck, .stateChange "listening"] := by
  simp only [processAudioChunk, hstate, if_pos, sendStateUpdate]
  rw [if_pos hlen]
  exact ⟨rfl, rfl, rfl, rfl, rfl, rfl⟩

/-- C9 witness: a 501-byte fragment while speaking. -/
theorem C9_barge_in_witness :
    ({ sessInit with state := "speaking" } : Sess).state = "speaking" ∧
    500 < (List.replicate 501 (0 : Nat)).length ∧
    ((processAudioChunk none { sessInit with state := "speaking" }
        (List.replicate 501 0) 0).1.interrupted = true ∧
     (processAudioChunk none { sessInit with state := "speaking" }
        (List.replicate 501 0) 0).1.state = "listening" ∧
     (processAudioChunk none { sessInit with state := "speaking" }
        (List.replicate 501 0) 0).1.audioChunks = [List.replicate 501 0] ∧
     (processAudioChunk none { sessInit with state := "speaking" }
        (List.replicate 501 0) 0).1.speechDetected = true ∧
     (processAudioChunk none { sessInit with state := "speaking" }
        (List.replicate 501 0) 0).1.speechChunkCount = 1 ∧
     (processAudioChunk none { sessInit with state := "speaking" }
        (List.replicate 501 0) 0).2 = [.interruptAck, .stateChange "listening"]) :=
  ⟨rfl, by rw [List.length_replicate]; norm_num,
   C9_barge_in none { sessInit with state := "speaking" }
    (List.replicate 501 0) 0 rfl (by rw [List.length_replicate]; norm_num)⟩

/-- A valid-WebM fragment of exactly 10000 bytes (the Large Threshold). -/
def c3Chunk : List Nat := [26, 69, 223, 163] ++ List.replicate 9996 0

/-- An analyzer reporting a positive quality score and RMS 0.5 (speech). -/
def c3Analyzer : List Nat → AudioAnalysis := fun _ => { qualityScore := 1, rms := 1 / 2 }

/-- A listening session with empty buffers. -/
def c3Sess : Sess := { sessInit with state := "listening" }

/-- The byte length of the exact-threshold fragment. -/
theorem c3Chunk_length : c3Chunk.length = 10000 := by
  simp only [c3Chunk, List.length_append, List.length_replicate]
  decide

/-- The exact-threshold fragment carries the WebM magic. -/
theorem c3Chunk_valid : isValidWebm c3Chunk = true := by
  have htake : c3Chunk.take 4 = [26, 69, 223, 163] := List.take_left' (by decide)
  simp [isValidWebm, c3Chunk_length, htake]

/-- C3 counterexample: a fragment of exactly 10000 bytes (valid WebM,
received while listening, treated as speech) does not fire
`_process_accumulated_audio` — the claim that the boundary value itself
triggers immediate processing is false. -/
theorem C3_exact_threshold_counterexample :
    c3Chunk.length = 10000 ∧
    Eff.processAccumulated ∉ (processAudioChunk (some c3Analyzer) c3Sess c3Chunk 0).2 := by
  refine ⟨c3Chunk_length, ?_⟩
  simp only [processAudioChunk, c3Sess, sessInit]
  rw [if_neg (by simp), if_neg (by simp), if_neg (by simp [c3Chunk_valid])]
  simp only [c3Analyzer]
  rw [if_pos (by norm_num)]
  simp only [processChunkCore]
  rw [if_neg (by rw [c3Chunk_length]; norm_num)]
  rw [if_neg (by simp)]
  rw [if_pos (by norm_num)]
  simp

/-- C3 as the code has it: the push-to-talk check is strict — a fragment
strictly larger than 10000 bytes fires immediate processing of the
accumulated audio, while a fragment of exactly 10000 bytes does not (it
joins normal segmentation instead). -/
theorem C3_large_threshold_strict (f : List Nat → AudioAnalysis) (s : Sess)
    (d : List Nat) (now : ℚ) (hstate : s.state = "listening")
    (hproc : s.processingAudio = false) (hvalid : isValidWebm d = true)
    (hq : 0 < (f d).qualityScore) :
    (10000 < d.length →
      Eff.processAccumulated ∈ (processAudioChunk (some f) s d now).2) ∧
    (d.length = 10000 → (2 : ℚ) / 100 < (f d).rms →
      Eff.processAccumulated ∉ (processAudioChunk (some f) s d now).2) := by
  have hred : processAudioChunk (some f) s d now =
      processChunkCore s d now [.audioMetricsMsg] (decide ((2 : ℚ) / 100 < (f d).rms))
        false := by
    simp only [processAudioChunk, hstate, hproc, hvalid]
    rw [if_neg (by simp), if_neg (by simp), if_neg (by simp)]
    rw [if_pos hq]
  constructor
  · intro hgt
    rw [hred]
    simp only [processChunkCore]
    rw [if_pos hgt]
    simp
  · intro hlen hrms
    rw [hred]
    simp only [processChunkCore]
    rw [if_neg (by rw [hlen]; norm_num)]
    rw [if_neg (by simp)]
    rw [if_pos (by simp [hrms])]
    simp

/-- A valid-WebM fragment one byte above the Large Threshold. -/
def c3ChunkBig : List Nat := [26, 69, 223, 163] ++ List.replicate 9997 0

/-- The byte length of the above-threshold fragment. -/
theorem c3ChunkBig_length : c3ChunkBig.length = 10001 := by
  simp only [c3ChunkBig, List.length_append, List.length_replicate]
  decide

/-- The above-threshold fragment carries the WebM magic. -/
theorem c3ChunkBig_valid : isValidWebm c3ChunkBig = true := by
  have htake : c3ChunkBig.take 4 = [26, 69, 223, 163] := List.take_left' (by decide)
  simp [isValidWebm, c3ChunkBig_length, htake]

/-- The analyzer reports positive quality for the big fragment. -/
theorem c3ChunkBig_quality : 0 < (c3Analyzer c3ChunkBig).qualityScore := by
  norm_num [c3Analyzer]

/-- C3 witness: the strict-threshold behaviour applied at a 10001-byte
fragment, every hypothesis discharged concretely. -/
theorem C3_large_threshold_strict_witness :
    (c3Sess.state = "listening" ∧ c3Sess.processingAudio = false ∧
     isValidWebm c3ChunkBig = true ∧ 0 < (c3Analyzer c3ChunkBig).qualityScore) ∧
    ((10000 < c3ChunkBig.length →
      Eff.processAccumulated ∈ (processAudioChunk (some c3Analyzer) c3Sess c3ChunkBig 0).2) ∧
    (c3ChunkBig.length = 10000 → (2 : ℚ) / 100 < (c3Analyzer c3ChunkBig).rms →
      Eff.processAccumulated ∉ (processAudioChunk (some c3Analyzer) c3Sess c3ChunkBig 0).2)) :=
  ⟨⟨rfl, rfl, c3ChunkBig_valid, c3ChunkBig_quality⟩,
   C3_large_threshold_strict c3Analyzer c3Sess c3ChunkBig 0 rfl rfl
     c3ChunkBig_valid c3ChunkBig_quality⟩

/-- One observable event on the LLM token stream: a token arrival, or a
barge-in interrupt landing at this yield point (the cooperative flag is
checked once per token in the source). -/
inductive LlmEv
  | tok (t : String)
  | intr
deriving DecidableEq, Repr

/-- A semantic-cache hit as the turn pipeline consumes it. -/
structure TurnCacheHit where
  response : String
deriving DecidableEq, Repr

/-- The external collaborators of one `process_turn_with_streaming`
call: the correlation id drawn from `uuid4`, the STT manager's outcome,
the cache probe's outcome (an exception inside its `try` leaves
`cache_hit = None`), `detect_search_needed`, the search service (already
formatted: context and citation when results are nonempty), whether the
LLM manager has a current provider, the token stream interleaved with
interrupts, and the TTS manager's outcome per sentence. -/
structure TurnEnv where
  correlationId : String
  sttResult : Except String String
  cacheGetResult : Except String (Option TurnCacheHit)
  detectSearch : Except String (Bool × String)
  searchResults : String → Except String (Option (String × String))
  hasLlmProvider : Bool
  llmEvents : List LlmEv
  ttsFn : String → Except String (List Nat)

/-- Accumulator of the token loop: `full_response`, `sentence_buffer`
and `first_audio_sent`. -/
structure LlmLoopAcc where
  fullResponse : String
  sentenceBuffer : String
  firstAudioSent : Bool
deriving DecidableEq, Repr

/-- The `async for token in token_generator` loop of
`process_turn_with_streaming` (lines 702-741): interrupt check per token
(`break` drops the rest of the stream), transcript updates, and
sentence-boundary TTS with the `audio` frame; TTS exceptions are caught
and logged. -/
def llmLoop (ttsFn : String → Except String (List Nat)) (acc : LlmLoopAcc) (s : Sess) :
    List LlmEv → LlmLoopAcc × Sess × List Eff
  | [] => (acc, s, [])
  | .intr :: evs => llmLoop ttsFn acc ({ s with interrupted := true }) evs
  | .tok t :: evs =>
      if s.interrupted then (acc, s, [])
      else
        let acc1 := { acc with fullResponse := acc.fullResponse ++ t,
                               sentenceBuffer := acc.sentenceBuffer ++ t }
        let e1 : List Eff := [.transcriptUpdate "assistant" acc1.fullResponse false]
        if t ∈ [".", "!", "?", "\n"] ∧ 10 < (pyStrip acc1.sentenceBuffer).length then
          if s.interrupted then (acc1, s, e1)
          else
            let r2 := if acc1.firstAudioSent then (s, ([] : List Eff))
                      else sendStateUpdate s "speaking"
            let acc2 := { acc1 with firstAudioSent := true }
            let e3 : List Eff :=
              match ttsFn (pyStrip acc1.sentenceBuffer) with
              | .ok audioData =>
                  if audioData ≠ [] ∧ r2.1.interrupted = false then
                    [.audioFrame "audio" audioData]
                  else []
              | .error _ => []
            let acc3 := { acc2 with sentenceBuffer := "" }
            let r := llmLoop ttsFn acc3 r2.1 evs
            (r.1, r.2.1, e1 ++ r2.2 ++ e3 ++ r.2.2)
        else
          let r := llmLoop ttsFn acc1 s evs
          (r.1, r.2.1, e1 ++ r.2.2)

/-- Lines 743-799 of `process_turn_with_streaming`: flush the remaining
sentence buffer (only when not interrupted), close the `llm` stage, and
either commit the assistant turn (final transcript, history append,
metrics success, conditional cache write, memory save) or, when
interrupted, mark the metrics record `success=False,
error="interrupted"` and return to `listening`. -/
def afterLlmLoop (env : TurnEnv) (transcript : String) (usedSearch : Bool)
    (acc : LlmLoopAcc) (s : Sess) (m : MetricsState) (now : ℚ) :
    Sess × MetricsState × List Eff :=
  let r1 :=
    if pyStrip acc.sentenceBuffer ≠ "" ∧ s.interrupted = false then
      let r2 := if acc.firstAudioSent then (s, ([] : List Eff))
                else sendStateUpdate s "speaking"
      let e3 : List Eff :=
        match env.ttsFn (pyStrip acc.sentenceBuffer) with
        | .ok audioData =>
            if audioData ≠ [] ∧ r2.1.interrupted = false then
              [.audioFrame "audio" audioData]
            else []
        | .error _ => []
      (r2.1, r2.2 ++ e3)
    else (s, [])
  let m1 := metricsEndStage m env.correlationId "llm" now
  if r1.1.interrupted = false then
    let e4 : List Eff := [.transcriptUpdate "assistant" acc.fullResponse true]
    let s2 := { r1.1 with conversationHistory :=
                  r1.1.conversationHistory ++ [("assistant", acc.fullResponse)] }
    let m2 := metricsEndRequest m1 env.correlationId true "" usedSearch now
    let e5 : List Eff :=
      if usedSearch = false ∧ 20 < acc.fullResponse.length then
        [.cacheSetEff transcript acc.fullResponse]
      else []
    let e6 : List Eff := [.memorySave "assistant" acc.fullResponse]
    (s2, m2, r1.2 ++ e4 ++ e5 ++ e6)
  else
    let m2 := metricsEndRequest m1 env.correlationId false "interrupted" false now
    let r4 := sendStateUpdate r1.1 "listening"
    (r4.1, m2, r1.2 ++ r4.2)

/-- The streaming phase of the turn: run the token loop, then the
post-stream finalisation. -/
def streamAndFinalize (env : TurnEnv) (transcript : String) (usedSearch : Bool)
    (acc0 : LlmLoopAcc) (s : Sess) (m : MetricsState) (now : ℚ) :
    Sess × MetricsState × List Eff :=
  let r := llmLoop env.ttsFn acc0 s env.llmEvents
  let fin := afterLlmLoop env transcript usedSearch r.1 r.2.1 m now
  (fin.1, fin.2.1, r.2.2 ++ fin.2.2)

/-- How the body of `process_turn_with_streaming` ends: normally, or by
an exception that propagates to the outer `except` handler. -/
inductive TurnRes
  | done (s : Sess) (m : MetricsState) (effs : List Eff)
  | raised (msg : String) (s : Sess) (m : MetricsState) (effs : List Eff)

/-- The body of `process_turn_with_streaming(audio_bytes)` up to its
outer exception handler, translated top to bottom: the short-audio gate,
metrics start, STT through the provider manager (its exception path ends
the turn as a failure), the silent empty-transcript path, the user
commit, the cache probe, the `if cache_hit and not needs_search:` guard
— under Python semantics the local `needs_search` is assigned only
below, so a truthy `cache_hit` makes the guard itself raise
`UnboundLocalError`, which is modelled by `TurnRes.raised`; the
lines 602-641 cache-hit branch is unreachable — then the search
decision, the search call, and the streaming phase. -/
def processTurnBody (env : TurnEnv) (s : Sess) (m : MetricsState)
    (audioBytes : List Nat) (sid uid : String) (now : ℚ) : TurnRes :=
  if audioBytes.length < 1000 then .done s m []
  else
    let cid := env.correlationId
    let m1 := metricsStartRequest m cid sid uid now
    let r1 := sendStateUpdate s "thinking"
    let m2 := metricsStartStage m1 cid "stt" now
    match env.sttResult with
    | .error msg =>
        let m3 := metricsEndStage m2 cid "stt" now
        let m4 := metricsEndRequest m3 cid false msg false now
        let r2 := sendStateUpdate r1.1 "listening"
        .done r2.1 m4 (r1.2 ++ r2.2)
    | .ok transcript =>
        let m3 := metricsEndStage m2 cid "stt" now
        if transcript = "" ∨ (pyStrip transcript).length < 2 then
          let m4 := metricsDiscard m3 cid
          let r2 := sendStateUpdate r1.1 "listening"
          .done r2.1 m4 (r1.2 ++ r2.2)
        else
          let e3 : List Eff := [.transcriptUpdate "user" transcript true]
          let s2 := { r1.1 with conversationHistory :=
                        r1.1.conversationHistory ++ [("user", transcript)] }
          let e4 : List Eff := [.memorySave "user" transcript]
          let cacheHit : Option TurnCacheHit :=
            match env.cacheGetResult with
            | .ok r => r
            | .error _ => none
          match cacheHit with
          | some _ =>
              .raised "UnboundLocalError: local variable needs_search referenced before assignment"
                s2 m3 (r1.2 ++ e3 ++ e4)
          | none =>
              match env.detectSearch with
              | .error msg => .raised msg s2 m3 (r1.2 ++ e3 ++ e4)
              | .ok ds =>
                  if ds.1 = true ∧ ds.2 ≠ "" then
                    let m4 := metricsStartStage m3 cid "search" now
                    match env.searchResults ds.2 with
                    | .error msg => .raised msg s2 m4 (r1.2 ++ e3 ++ e4)
                    | .ok _ =>
                        let m5 := metricsEndStage m4 cid "search" now
                        let m6 := metricsStartStage m5 cid "llm" now
                        if env.hasLlmProvider = false then
                          .raised "No LLM provider available" s2 m6 (r1.2 ++ e3 ++ e4)
                        else
                          let fin := streamAndFinalize env transcript true
                            ⟨"", "", false⟩ s2 m6 now
                          .done fin.1 fin.2.1 (r1.2 ++ e3 ++ e4 ++ fin.2.2)
                  else
                    let m4 := metricsStartStage m3 cid "llm" now
                    if env.hasLlmProvider = false then
                      .raised "No LLM provider available" s2 m4 (r1.2 ++ e3 ++ e4)
                    else
                      let fin := streamAndFinalize env transcript false
                        ⟨"", "", false⟩ s2 m4 now
                      .done fin.1 fin.2.1 (r1.2 ++ e3 ++ e4 ++ fin.2.2)

/-- `process_turn_with_streaming` with its outer `except Exception`
handler: an escaped exception ends the metrics record as a failure (a
no-op when the record was already closed or discarded) and sends an
`error` frame. -/
def processTurn (env : TurnEnv) (s : Sess) (m : MetricsState) (audioBytes : List Nat)
    (sid uid : String) (now : ℚ) : Sess × MetricsState × List Eff :=
  match processTurnBody env s m audioBytes sid uid now with
  | .done s2 m2 effs => (s2, m2, effs)
  | .raised msg s2 m2 effs =>
      let m3 := metricsEndRequest m2 env.correlationId false msg false now
      (s2, m3, effs ++ [.errorFrame msg])

set_option maxRecDepth 8192

/-- Turn environment for C1: STT yields the warmed greeting and the
semantic cache returns a hit; every later collaborator is healthy. -/
def c1Env : TurnEnv :=
  { correlationId := "c1cid"
    sttResult := .ok "Hello"
    cacheGetResult := .ok (some ⟨"Hello. I am your AI voice assistant."⟩)
    detectSearch := .ok (false, "")
    searchResults := fun _ => .ok none
    hasLlmProvider := true
    llmEvents := [.tok "unreached."]
    ttsFn := fun _ => .ok [1] }

/-- A listening session about to process the greeting turn. -/
def c1Sess : Sess := { sessInit with state := "listening" }

/-- 1000 bytes of audio (past the short-audio gate). -/
def c1Audio : List Nat := List.replicate 1000 0

/-- C1 (code bug): on a turn whose transcript hits the semantic cache,
`process_turn_with_streaming` does not short-circuit to cached TTS — the
guard `if cache_hit and not needs_search:` reads the local `needs_search`
before any assignment, so the turn raises `UnboundLocalError`: the outer
handler closes the metrics record as a failure (failed counter 1,
successful 0, a history record with `success=False` and the
UnboundLocalError message) and sends an `error` frame; no audio frame of
any type is sent, no assistant message is committed, and the state is
left in `thinking` (only the caller's `finally` later restores
`listening`). -/
theorem C1_cache_hit_raises_unbound_local :
    (processTurn c1Env c1Sess metricsInit c1Audio "sid" "uid" 0).2.2 =
      [Eff.stateChange "thinking",
       Eff.transcriptUpdate "user" "Hello" true,
       Eff.memorySave "user" "Hello",
       Eff.errorFrame "UnboundLocalError: local variable needs_search referenced before assignment"] ∧
    (processTurn c1Env c1Sess metricsInit c1Audio "sid" "uid" 0).1.state = "thinking" ∧
    (processTurn c1Env c1Sess metricsInit c1Audio "sid" "uid" 0).1.conversationHistory =
      [("user", "Hello")] ∧
    (processTurn c1Env c1Sess metricsInit c1Audio "sid" "uid" 0).2.1.successfulRequests = 0 ∧
    (processTurn c1Env c1Sess metricsInit c1Audio "sid" "uid" 0).2.1.failedRequests = 1 ∧
    (processTurn c1Env c1Sess metricsInit c1Audio "sid" "uid" 0).2.1.inFlight = [] ∧
    ((processTurn c1Env c1Sess metricsInit c1Audio "sid" "uid" 0).2.1.metricsHistory.map
        fun r => (r.correlationId, r.success, r.errorMessage, r.usedSearch)) =
      [("c1cid", false,
        "UnboundLocalError: local variable needs_search referenced before assignment", false)] := by
  decide

/-- Effects the token loop can emit: interim transcripts, the `speaking`
state change, and `audio` frames. -/
def isStreamEff : Eff → Bool
  | .transcriptUpdate _ _ _ => true
  | .stateChange _ => true
  | .audioFrame _ _ => true
  | _ => false

/-- Once the interrupt flag is observed (or an interrupt lands on the
stream), the loop ends with the flag set: `break` only fires on a set
flag and nothing in the loop clears it. -/
theorem llmLoop_flag (ttsFn : String → Except String (List Nat)) :
    ∀ (evs : List LlmEv) (acc : LlmLoopAcc) (s : Sess),
      s.interrupted = true ∨ LlmEv.intr ∈ evs →
      (llmLoop ttsFn acc s evs).2.1.interrupted = true := by
  intro evs
  induction evs with
  | nil =>
      intro acc s h
      rcases h with h | h
      · simpa [llmLoop] using h
      · simp at h
  | cons e evs ih =>
      intro acc s h
      match e with
      | .intr =>
          show (llmLoop ttsFn acc ({ s with interrupted := true }) evs).2.1.interrupted = true
          exact ih acc _ (Or.inl rfl)
      | .tok t =>
          by_cases hs : s.interrupted = true
          · simp [llmLoop, hs]
          · have hmem : LlmEv.intr ∈ evs := by
              rcases h with h | h
              · exact absurd h hs
              · rcases List.mem_cons.mp h with h1 | h2
                · exact absurd h1 (by simp)
                · exact h2
            have hsf : s.interrupted = false := by simpa using hs
            simp only [llmLoop, hsf, Bool.false_eq_true, if_false]
            split
            · exact ih _ _ (Or.inr hmem)
            · exact ih _ _ (Or.inr hmem)

/-- The token loop never touches the conversation history. -/
theorem llmLoop_history (ttsFn : String → Except String (List Nat)) :
    ∀ (evs : List LlmEv) (acc : LlmLoopAcc) (s : Sess),
      (llmLoop ttsFn acc s evs).2.1.conversationHistory = s.conversationHistory := by
  intro evs
  induction evs with
  | nil => intro acc s; simp [llmLoop]
  | cons e evs ih =>
      intro acc s
      match e with
      | .intr =>
          show (llmLoop ttsFn acc ({ s with interrupted := true }) evs).2.1.conversationHistory = _
          rw [ih]
      | .tok t =>
          by_cases hs : s.interrupted = true
          · simp [llmLoop, hs]
          · have hsf : s.interrupted = false := by simpa using hs
            simp only [llmLoop, hsf, Bool.false_eq_true, if_false]
            split
            · rw [ih]
              split
              · rfl
              · rfl
            · rw [ih]

/-- Every effect the token loop emits is an interim transcript, a state
change or an audio frame — in particular no cache write and no error
frame. -/
theorem llmLoop_effects (ttsFn : String → Except String (List Nat)) :
    ∀ (evs : List LlmEv) (acc : LlmLoopAcc) (s : Sess) (e : Eff),
      e ∈ (llmLoop ttsFn acc s evs).2.2 → isStreamEff e = true := by
  intro evs
  induction evs with
  | nil => intro acc s e he; simp [llmLoop] at he
  | cons ev evs ih =>
      intro acc s e he
      match ev with
      | .intr =>
          exact ih acc ({ s with interrupted := true }) e he
      | .tok t =>
          by_cases hs : s.interrupted = true
          · simp [llmLoop, hs] at he
          · have hsf : s.interrupted = false := by simpa using hs
            simp only [llmLoop, hsf, Bool.false_eq_true, if_false] at he
            revert he
            split
            · intro he
              simp only [List.mem_append] at he
              rcases he with ((he | he) | he) | he
              · simp at he; rw [he]; rfl
              · revert he
                split
                · intro he; simp at he
                · intro he
                  simp [sendStateUpdate] at he
                  rw [he]; rfl
              · revert he
                split
                · intro he
                  simp at he
                  rw [he.2]
                  rfl
                · intro he
                  simp at he
              · exact ih _ _ e he
            · intro he
              simp only [List.mem_append] at he
              rcases he with he | he
              · simp at he; rw [he]; rfl
              · exact ih _ _ e he

/-- C7: whenever a barge-in interrupt lands during LLM streaming, the
turn finalisation commits nothing: the conversation history is exactly
what it was when streaming began, no cache write and no error frame is
emitted, the metrics record is ended with `success=False,
error="interrupted"`, and the state returns to `listening`. -/
theorem C7_interrupted_turn_no_commit (env : TurnEnv) (transcript : String)
    (usedSearch : Bool) (acc0 : LlmLoopAcc) (s : Sess) (m : MetricsState) (now : ℚ)
    (hintr : LlmEv.intr ∈ env.llmEvents) :
    (streamAndFinalize env transcript usedSearch acc0 s m now).1.conversationHistory =
      s.conversationHistory ∧
    (streamAndFinalize env transcript usedSearch acc0 s m now).1.state = "listening" ∧
    (∀ q r, Eff.cacheSetEff q r ∉ (streamAndFinalize env transcript usedSearch acc0 s m now).2.2) ∧
    (∀ msg, Eff.errorFrame msg ∉ (streamAndFinalize env transcript usedSearch acc0 s m now).2.2) ∧
    (streamAndFinalize env transcript usedSearch acc0 s m now).2.1 =
      metricsEndRequest (metricsEndStage m env.correlationId "llm" now)
        env.correlationId false "interrupted" false now := by
  have hflag := llmLoop_flag env.ttsFn env.llmEvents acc0 s (Or.inr hintr)
  have hhist := llmLoop_history env.ttsFn env.llmEvents acc0 s
  have h1 : ¬ (pyStrip (llmLoop env.ttsFn acc0 s env.llmEvents).1.sentenceBuffer ≠ "" ∧
      (llmLoop env.ttsFn acc0 s env.llmEvents).2.1.interrupted = false) := by
    rintro ⟨_, hb⟩
    rw [hflag] at hb
    exact absurd hb (by simp)
  have h2 : ¬ ((llmLoop env.ttsFn acc0 s env.llmEvents).2.1.interrupted = false) := by
    rw [hflag]
    simp
  simp only [streamAndFinalize, afterLlmLoop]
  rw [if_neg h1, if_neg h2]
  refine ⟨hhist, rfl, ?_, ?_, rfl⟩
  · intro q r hmem
    simp only [sendStateUpdate, List.nil_append, List.mem_append] at hmem
    rcases hmem with hmem | hmem
    · have := llmLoop_effects env.ttsFn env.llmEvents acc0 s _ hmem
      simp [isStreamEff] at this
    · simp at hmem
  · intro msg hmem
    simp only [sendStateUpdate, List.nil_append, List.mem_append] at hmem
    rcases hmem with hmem | hmem
    · have := llmLoop_effects env.ttsFn env.llmEvents acc0 s _ hmem
      simp [isStreamEff] at this
    · simp at hmem

/-- Turn environment for the C7 witness: a healthy pipeline whose token
stream is interrupted after the first sentence. -/
def c7Env : TurnEnv :=
  { correlationId := "c7cid"
    sttResult := .ok "hi there"
    cacheGetResult := .ok none
    detectSearch := .ok (false, "")
    searchResults := fun _ => .ok none
    hasLlmProvider := true
    llmEvents := [.tok "Sure, here is a first sentence.", .intr, .tok " rest"]
    ttsFn := fun _ => .ok [3, 4] }

/-- C7 witness: the no-commit guarantee applied to the concrete
interrupted stream. -/
theorem C7_interrupted_turn_no_commit_witness :
    LlmEv.intr ∈ c7Env.llmEvents ∧
    ((streamAndFinalize c7Env "hi there" false ⟨"", "", false⟩
        ({ sessInit with state := "thinking" }) metricsInit 0).1.conversationHistory =
      ({ sessInit with state := "thinking" } : Sess).conversationHistory ∧
    (streamAndFinalize c7Env "hi there" false ⟨"", "", false⟩
        ({ sessInit with state := "thinking" }) metricsInit 0).1.state = "listening" ∧
    (∀ q r, Eff.cacheSetEff q r ∉ (streamAndFinalize c7Env "hi there" false ⟨"", "", false⟩
        ({ sessInit with state := "thinking" }) metricsInit 0).2.2) ∧
    (∀ msg, Eff.errorFrame msg ∉ (streamAndFinalize c7Env "hi there" false ⟨"", "", false⟩
        ({ sessInit with state := "thinking" }) metricsInit 0).2.2) ∧
    (streamAndFinalize c7Env "hi there" false ⟨"", "", false⟩
        ({ sessInit with state := "thinking" }) metricsInit 0).2.1 =
      metricsEndRequest (metricsEndStage metricsInit c7Env.correlationId "llm" 0)
        c7Env.correlationId false "interrupted" false 0) :=
  ⟨by decide,
   C7_interrupted_turn_no_commit c7Env "hi there" false ⟨"", "", false⟩
     ({ sessInit with state := "thinking" }) metricsInit 0 (by decide)⟩

/-- Looking up the key just assigned yields the assigned value. -/
theorem alGet_alSet_same {α : Type} (l : List (String × α)) (k : String) (v : α) :
    alGet (alSet l k v) k = some v := by
  induction l with
  | nil => simp [alSet, alGet]
  | cons p rest ih =>
      by_cases hk : p.1 = k
      · simp [alSet, alGet, hk]
      · simp [alSet, alGet, hk, ih]

/-- Re-assigning the same key overwrites the earlier assignment. -/
theorem alSet_alSet_same {α : Type} (l : List (String × α)) (k : String) (v w : α) :
    alSet (alSet l k v) k w = alSet l k w := by
  induction l with
  | nil => simp [alSet]
  | cons p rest ih =>
      by_cases hk : p.1 = k
      · simp [alSet, hk]
      · simp [alSet, hk, ih]

/-- Assigning a fresh key and then removing it restores the map. -/
theorem alRemove_alSet_fresh {α : Type} (l : List (String × α)) (k : String) (v : α)
    (h : alGet l k = none) : alRemove (alSet l k v) k = l := by
  induction l with
  | nil => simp [alSet, alRemove]
  | cons p rest ih =>
      by_cases hk : p.1 = k
      · simp [alGet, hk] at h
      · have h2 : alGet rest k = none := by
          simpa [alGet, hk] using h
        simp [alSet, alRemove, hk, ih h2]

/-- A started, staged and then discarded request leaves the collector
with only the total-requests counter bumped: no success, no failure, no
history record, no in-flight entry. -/
theorem metricsDiscard_roundTrip (m : MetricsState) (cid sid uid stage : String)
    (now : ℚ) (h : alGet m.inFlight cid = none) :
    metricsDiscard (metricsEndStage (metricsStartStage
        (metricsStartRequest m cid sid uid now) cid stage now) cid stage now) cid =
      { m with totalRequests := m.totalRequests + 1 } := by
  simp only [metricsStartRequest, metricsStartStage, metricsEndStage, metricsDiscard,
    alGet_alSet_same, alSet_alSet_same]
  rw [alRemove_alSet_fresh _ _ _ h]

/-- C8: a turn whose STT transcript is empty or at most one character
(after stripping) ends silently: the state returns to `listening`, the
conversation history is untouched, the in-flight metrics record is
discarded without entering the history, neither the successful- nor the
failed-requests counter moves (only the total bumped at start remains),
and the only frames sent are the two state changes. -/
theorem C8_empty_transcript_silent (env : TurnEnv) (s : Sess) (m : MetricsState)
    (audioBytes : List Nat) (sid uid t : String) (now : ℚ)
    (hlen : 1000 ≤ audioBytes.length)
    (ht : env.sttResult = .ok t)
    (hempty : t = "" ∨ (pyStrip t).length < 2)
    (hfresh : alGet m.inFlight env.correlationId = none) :
    processTurn env s m audioBytes sid uid now =
      ({ s with state := "listening" },
       { m with totalRequests := m.totalRequests + 1 },
       [Eff.stateChange "thinking", Eff.stateChange "listening"]) := by
  simp only [processTurn, processTurnBody, ht]
  rw [if_neg (not_lt.mpr hlen), if_pos hempty]
  simp only [sendStateUpdate]
  rw [metricsDiscard_roundTrip m env.correlationId sid uid "stt" now hfresh]
  simp

/-- Turn environment for the C8 witness: STT hears one stray character. -/
def c8Env : TurnEnv :=
  { correlationId := "c8cid"
    sttResult := .ok " a "
    cacheGetResult := .ok none
    detectSearch := .ok (false, "")
    searchResults := fun _ => .ok none
    hasLlmProvider := true
    llmEvents := []
    ttsFn := fun _ => .ok [] }

/-- C8 witness: the silent turn at a concrete one-character transcript. -/
theorem C8_empty_transcript_silent_witness :
    (1000 ≤ (List.replicate 1000 (0 : Nat)).length ∧
     c8Env.sttResult = .ok " a " ∧
     (" a " = "" ∨ (pyStrip " a ").length < 2) ∧
     alGet metricsInit.inFlight c8Env.correlationId = none) ∧
    processTurn c8Env c1Sess metricsInit (List.replicate 1000 0) "sid" "uid" 0 =
      ({ c1Sess with state := "listening" },
       { metricsInit with totalRequests := metricsInit.totalRequests + 1 },
       [Eff.stateChange "thinking", Eff.stateChange "listening"]) :=
  ⟨⟨by rw [List.length_replicate], rfl, Or.inr (by decide), rfl⟩,
   C8_empty_transcript_silent c8Env c1Sess metricsInit (List.replicate 1000 0)
     "sid" "uid" " a " 0 (by rw [List.length_replicate]) rfl
     (Or.inr (by decide)) rfl⟩
